import Mathlib

/-!
Shallow embedding of the batch position-closing endpoints of
`backend/mt5/app/routes/position.py` from the MetaTrader5 quant server.

The two endpoints embedded here are `close_all_positions_endpoint`
(POST /close_all_positions) and `close_positions_batch_endpoint`
(POST /close_positions_batch).  The MetaTrader5 terminal is modelled as a
`Gateway` record of response functions; prices are exact rationals (the
code only ever selects a bid or ask and passes it through, it never does
float arithmetic on them).
-/

namespace MT5Quant

/-! ### MetaTrader5 library constants (numeric values from the MetaTrader5 package) -/

def POSITION_TYPE_BUY : Nat := 0

def POSITION_TYPE_SELL : Nat := 1

def ORDER_TYPE_BUY : Nat := 0

def ORDER_TYPE_SELL : Nat := 1

def TRADE_ACTION_DEAL : Nat := 1

def ORDER_TIME_GTC : Nat := 0

def ORDER_FILLING_FOK : Nat := 0

def ORDER_FILLING_IOC : Nat := 1

def TRADE_RETCODE_DONE : Nat := 10009

/-! ### Data model -/

/-- A position snapshot as returned by `mt5.positions_get`; only the fields the
two endpoints read are modelled. -/
structure Position where
  ticket : Nat
  symbol : String
  type : Nat
  volume : ℚ
  magic : Int
  deriving DecidableEq, Repr

/-- A quote as returned by `mt5.symbol_info_tick`. -/
structure Tick where
  bid : ℚ
  ask : ℚ
  deriving DecidableEq, Repr

/-- The order-request dictionary built by both endpoints before
`mt5.order_send`. -/
structure OrderRequest where
  action : Nat
  symbol : String
  volume : ℚ
  type : Nat
  position : Nat
  price : ℚ
  deviation : Nat
  magic : Int
  comment : String
  type_time : Nat
  type_filling : Nat
  deriving DecidableEq, Repr

/-- The result structure returned by `mt5.order_send` (the fields the code
reads, plus the echoed execution price carried by `result._asdict()`). -/
structure OrderResult where
  retcode : Nat
  comment : String
  price : ℚ
  deriving DecidableEq, Repr

/-- The MetaTrader5 terminal connection, modelled as a record of responses.
`positions_get` is `mt5.positions_get()` with no arguments (`none` = the call
failed), while `positions_get_by_ticket t` is `mt5.positions_get(ticket=t)`
(the empty list covers both a `None` return and an empty tuple: the code
checks them with a single falsiness test). -/
structure Gateway where
  init_ok : Bool
  last_error : String
  positions_get : Option (List Position)
  positions_get_by_ticket : Nat → List Position
  symbol_info_tick : String → Option Tick
  order_send : OrderRequest → Option OrderResult

/-- Error detail carried by a failed item of /close_all_positions: either the
numeric retcode stored under `"error"` by the non-done branch, or the
exception string stored by the `except` branch. -/
inductive ErrDetail
  | code (retcode : Nat)
  | msg (text : String)
  deriving DecidableEq, Repr

/-- One result dictionary produced by the inner `close_position` worker of
`close_all_positions_endpoint`: `{"status", "ticket"}` on success,
`{"status", "ticket", "symbol", "error"}` or `{"status", "ticket", "error"}`
on failure. -/
structure AllOutcome where
  status : String
  ticket : Nat
  symbol : Option String
  error : Option ErrDetail
  deriving DecidableEq, Repr

/-- HTTP response of /close_all_positions: a 200 report with the two lists,
or an error status with a single message. -/
inductive AllResp
  | report (closed : List Nat) (failed : List AllOutcome)
  | err (status : Nat) (error : String)
  deriving DecidableEq, Repr

/-- A `successful_closes` entry of /close_positions_batch:
`{"ticket": ticket, "result": result._asdict()}`. -/
structure BatchSuccess where
  ticket : Nat
  result : OrderResult
  deriving DecidableEq, Repr

/-- A `failed_closes` entry of /close_positions_batch: ticket, error string,
and the optional `"result"` key (`none` = key absent, `some none` = key
present with JSON null, `some (some r)` = raw result attached). -/
structure BatchFailure where
  ticket : Nat
  error : String
  result : Option (Option OrderResult)
  deriving DecidableEq, Repr

/-- The 200 response body of /close_positions_batch (the constant
`"message"` field is omitted). -/
structure BatchReport where
  successful_closes : List BatchSuccess
  failed_closes : List BatchFailure
  deriving DecidableEq, Repr

/-- Python exception message raised by `tick.bid` when
`symbol_info_tick` returned `None` (close_all path has no `None` check). -/
def noneBidErr : String := "\x27NoneType\x27 object has no attribute \x27bid\x27"

/-- Python exception message raised by `tick.ask` when
`symbol_info_tick` returned `None`. -/
def noneAskErr : String := "\x27NoneType\x27 object has no attribute \x27ask\x27"

/-- Python exception message raised by `result.retcode` when `order_send`
returned `None` (close_all path has no `None` check on the result). -/
def noneRetcodeErr : String := "\x27NoneType\x27 object has no attribute \x27retcode\x27"

/-! ### /close_all_positions (`close_all_positions_endpoint`, position.py:124-185) -/

/-- The order-request dictionary built by the inner `close_position` worker
(position.py:147-159): deviation 10, the position's own magic, comment
"Closed by API", IOC filling. -/
def all_close_request (pos : Position) (order_type : Nat) (price : ℚ) : OrderRequest :=
  { action := TRADE_ACTION_DEAL
  , symbol := pos.symbol
  , volume := pos.volume
  , type := order_type
  , position := pos.ticket
  , price := price
  , deviation := 10
  , magic := pos.magic
  , comment := "Closed by API"
  , type_time := ORDER_TIME_GTC
  , type_filling := ORDER_FILLING_IOC }

/-- position.py:144 — opposing side of the close_all worker: the closing
order is a sell for a buy position, a buy otherwise. -/
def all_order_type (pos : Position) : Nat :=
  if pos.type = POSITION_TYPE_BUY then ORDER_TYPE_SELL else ORDER_TYPE_BUY

/-- position.py:145 — closing price selection of the close_all worker:
bid for a closing sell, ask for a closing buy. -/
def all_price (pos : Position) (tick : Tick) : ℚ :=
  if all_order_type pos = ORDER_TYPE_SELL then tick.bid else tick.ask

/-- The inner `close_position` worker of `close_all_positions_endpoint`
(position.py:142-167).  A `None` tick or a `None` send result raises an
`AttributeError` that the worker's own `except` turns into a failed outcome
with `str(e)` as the error; a non-done retcode yields a failed outcome whose
`"error"` is the numeric retcode (with the symbol attached); a done retcode
yields `{"status": "closed", "ticket": ...}`. -/
def close_position (gw : Gateway) (pos : Position) : AllOutcome :=
  match gw.symbol_info_tick pos.symbol with
  | none =>
      { status := "failed", ticket := pos.ticket, symbol := none
      , error := some (.msg (if all_order_type pos = ORDER_TYPE_SELL then noneBidErr else noneAskErr)) }
  | some tick =>
      match gw.order_send (all_close_request pos (all_order_type pos) (all_price pos tick)) with
      | none =>
          { status := "failed", ticket := pos.ticket, symbol := none
          , error := some (.msg noneRetcodeErr) }
      | some result =>
          if result.retcode = TRADE_RETCODE_DONE then
            { status := "closed", ticket := pos.ticket, symbol := none, error := none }
          else
            { status := "failed", ticket := pos.ticket, symbol := some pos.symbol
            , error := some (.code result.retcode) }

/-- Collect a list's elements in the order given by `arrival` (the embedding
of `as_completed`: thread completion order is a permutation of the submitted
futures, supplied here as an explicit index list). -/
def reorderBy (xs : List α) (arrival : List Nat) : List α :=
  arrival.filterMap fun i => xs[i]?

/-- `close_all_positions_endpoint` (position.py:124-185).  `magicArg` is the
`magic` query parameter; the function body never reads it.  `arrival` is the
order in which `as_completed` yields the futures.  With zero positions,
`ThreadPoolExecutor(max_workers=len(positions))` receives `max_workers=0`
and raises `ValueError`, which the outer handler converts to a 500. -/
def close_all_positions_endpoint (gw : Gateway) (magicArg : Option Int)
    (arrival : List Nat) : AllResp :=
  if gw.init_ok then
    match gw.positions_get with
    | none => .err 500 ("positions_get failed: " ++ gw.last_error)
    | some positions =>
        if positions.length = 0 then
          .err 500 "Internal server error"
        else
          let outcomes := reorderBy (positions.map (close_position gw)) arrival
          .report (outcomes.filterMap fun o => if o.status = "closed" then some o.ticket else none)
                  (outcomes.filter fun o => o.status ≠ "closed")
  else .err 500 ("MT5 initialize failed: " ++ gw.last_error)

/-! ### /close_positions_batch (`close_positions_batch_endpoint`, position.py:455-524) -/

/-- The closing-request dictionary built inside the batch loop
(position.py:491-503): deviation 20, magic 0, comment "Batch Close", FOK
filling. -/
def batch_close_request (pos : Position) (order_type : Nat) (price : ℚ) : OrderRequest :=
  { action := TRADE_ACTION_DEAL
  , position := pos.ticket
  , symbol := pos.symbol
  , volume := pos.volume
  , type := order_type
  , price := price
  , deviation := 20
  , magic := 0
  , comment := "Batch Close"
  , type_time := ORDER_TIME_GTC
  , type_filling := ORDER_FILLING_FOK }

/-- position.py:479 — opposing side of the batch loop (the code compares the
position type against `ORDER_TYPE_BUY`, numerically equal to
`POSITION_TYPE_BUY`). -/
def batch_order_type (pos : Position) : Nat :=
  if pos.type = ORDER_TYPE_BUY then ORDER_TYPE_SELL else ORDER_TYPE_BUY

/-- position.py:488 — closing price selection of the batch loop. -/
def batch_price (pos : Position) (tick : Tick) : ℚ :=
  if batch_order_type pos = ORDER_TYPE_SELL then tick.bid else tick.ask

/-- One iteration of the `close_positions_batch_endpoint` loop
(position.py:468-514), for a single ticket. -/
def close_ticket (gw : Gateway) (ticket : Nat) : BatchSuccess ⊕ BatchFailure :=
  match gw.positions_get_by_ticket ticket with
  | [] => .inr { ticket := ticket, error := "Position not found.", result := none }
  | pos :: _ =>
      match gw.symbol_info_tick pos.symbol with
      | none =>
          .inr { ticket := ticket
               , error := "Failed to get price for symbol " ++ pos.symbol
               , result := none }
      | some tick =>
          match gw.order_send (batch_close_request pos (batch_order_type pos) (batch_price pos tick)) with
          | some result =>
              if result.retcode = TRADE_RETCODE_DONE then
                .inl { ticket := ticket, result := result }
              else
                .inr { ticket := ticket, error := result.comment, result := some (some result) }
          | none =>
              .inr { ticket := ticket, error := "order_send returned None", result := some none }

/-- `close_positions_batch_endpoint` on a well-formed ticket list
(position.py:464-520): a sequential loop appending each outcome to
`successful_closes` or `failed_closes` in submission order. -/
def close_positions_batch (gw : Gateway) (tickets : List Nat) : BatchReport :=
  { successful_closes := tickets.filterMap fun t => (close_ticket gw t).getLeft?
  , failed_closes := tickets.filterMap fun t => (close_ticket gw t).getRight? }

/-! ### Gateway call traces

Per-item Gateway interactions, mirroring each function's control flow; used
to state that an aborted batch performs no quote fetches and no order
submissions. -/

/-- One Gateway interaction made on behalf of a single item. -/
inductive GCall
  | positionLookup (ticket : Nat)
  | quoteFetch (symbol : String)
  | orderSubmit (req : OrderRequest)
  deriving DecidableEq, Repr

/-- Gateway calls made by one `close_position` worker of
/close_all_positions: a quote fetch, then an order submission unless the
quote fetch raised. -/
def close_position_calls (gw : Gateway) (pos : Position) : List GCall :=
  match gw.symbol_info_tick pos.symbol with
  | none => [.quoteFetch pos.symbol]
  | some tick =>
      [.quoteFetch pos.symbol, .orderSubmit (all_close_request pos (all_order_type pos) (all_price pos tick))]

/-- Per-item Gateway calls made by /close_all_positions (the upfront
`positions_get` resolution call is not a per-item call and is not listed). -/
def close_all_per_item_calls (gw : Gateway) : List GCall :=
  if gw.init_ok then
    match gw.positions_get with
    | none => []
    | some positions =>
        if positions.length = 0 then []
        else positions.flatMap (close_position_calls gw)
  else []

/-- Gateway calls made by one iteration of the /close_positions_batch loop. -/
def close_ticket_calls (gw : Gateway) (ticket : Nat) : List GCall :=
  match gw.positions_get_by_ticket ticket with
  | [] => [.positionLookup ticket]
  | pos :: _ =>
      match gw.symbol_info_tick pos.symbol with
      | none => [.positionLookup ticket, .quoteFetch pos.symbol]
      | some tick =>
          [.positionLookup ticket, .quoteFetch pos.symbol
          , .orderSubmit (batch_close_request pos (batch_order_type pos) (batch_price pos tick))]

/-! ### Spec model of concurrent dispatch

Definition written from the spec's words, for comparison with the source
functions: "launch one concurrent unit of work per resolved item" and
"collect every outcome regardless of arrival order" — one `close_ticket`
unit per ticket, outcomes gathered in the completion order `arrival`. -/

/-- Spec-side concurrent Batch Dispatcher for the explicit-ticket mode:
outcomes are collected in completion order `arrival`, then partitioned. -/
def concurrent_dispatch_spec (gw : Gateway) (tickets : List Nat)
    (arrival : List Nat) : BatchReport :=
  let outcomes := reorderBy (tickets.map (close_ticket gw)) arrival
  { successful_closes := outcomes.filterMap Sum.getLeft?
  , failed_closes := outcomes.filterMap Sum.getRight? }

/-! ### Helper lemmas -/

/-- Collecting by the identity completion order returns the submitted list. -/
theorem reorder_range (xs : List α) : reorderBy xs (List.range xs.length) = xs := by
  induction xs with
  | nil => rfl
  | cons x xs ih =>
      unfold reorderBy at ih ⊢
      rw [List.length_cons, List.range_succ_eq_map, List.filterMap_cons]
      have hc : ((fun i => (x :: xs)[i]?) ∘ Nat.succ) = fun i => xs[i]? := by
        funext i
        simp
      simp only [List.getElem?_cons_zero, List.filterMap_map, hc, ih]

/-- Collecting by any completion order that is a permutation of the indices
yields a permutation of the submitted outcomes. -/
theorem reorder_perm (xs : List α) (arrival : List Nat)
    (h : arrival.Perm (List.range xs.length)) : (reorderBy xs arrival).Perm xs := by
  have hp := h.filterMap (fun i => xs[i]?)
  rw [show (List.range xs.length).filterMap (fun i => xs[i]?) = xs from reorder_range xs] at hp
  exact hp

/-- The closed/failed partition of /close_all_positions covers every outcome
exactly once. -/
theorem closed_failed_length (l : List AllOutcome) :
    (l.filterMap fun o => if o.status = "closed" then some o.ticket else none).length
      + (l.filter fun o => o.status ≠ "closed").length = l.length := by
  induction l with
  | nil => rfl
  | cons o l ih =>
      by_cases h : o.status = "closed"
      · simp [List.filterMap_cons, List.filter_cons, h] at ih ⊢
        omega
      · simp [List.filterMap_cons, List.filter_cons, h] at ih ⊢
        omega

/-- A successful batch entry records the submitted ticket. -/
theorem close_ticket_inl_ticket (gw : Gateway) (t : Nat) (s : BatchSuccess)
    (h : close_ticket gw t = .inl s) : s.ticket = t := by
  unfold close_ticket at h
  repeat' split at h
  all_goals first
    | exact Sum.noConfusion h
    | (injection h with h; subst h; rfl)

/-- A failed batch entry records the submitted ticket. -/
theorem close_ticket_inr_ticket (gw : Gateway) (t : Nat) (f : BatchFailure)
    (h : close_ticket gw t = .inr f) : f.ticket = t := by
  unfold close_ticket at h
  repeat' split at h
  all_goals first
    | exact Sum.noConfusion h
    | (injection h with h; subst h; rfl)

/-- The two filterMap projections of the batch loop partition the ticket
list: their lengths sum to the number of submitted tickets. -/
theorem batch_counts_aux (gw : Gateway) (tickets : List Nat) :
    (tickets.filterMap fun t => (close_ticket gw t).getLeft?).length
      + (tickets.filterMap fun t => (close_ticket gw t).getRight?).length = tickets.length := by
  induction tickets with
  | nil => rfl
  | cons t ts ih =>
      cases hct : close_ticket gw t with
      | inl s =>
          simp only [List.filterMap_cons, hct, Sum.getLeft?_inl, Sum.getRight?_inl,
            List.length_cons]
          omega
      | inr f =>
          simp only [List.filterMap_cons, hct, Sum.getLeft?_inr, Sum.getRight?_inr,
            List.length_cons]
          omega

/-- The batch report partitions the submitted tickets: its two lengths sum to
the number of submitted tickets. -/
theorem batch_counts (gw : Gateway) (tickets : List Nat) :
    (close_positions_batch gw tickets).successful_closes.length
      + (close_positions_batch gw tickets).failed_closes.length = tickets.length := by
  simpa [close_positions_batch] using batch_counts_aux gw tickets

/-! ### C1 -/

/-- C1: every item submitted to either batch-close operation (the resolved
position list of /close_all_positions, or the caller-supplied ticket list of
/close_positions_batch, duplicates included) yields exactly one outcome in
exactly one of the two report partitions: the closed-count plus the
failed-count equals the number of submitted items. -/
theorem batch_report_partition (gw : Gateway) (tickets : List Nat) (ps : List Position)
    (arrival : List Nat) (hinit : gw.init_ok = true) (hps : gw.positions_get = some ps)
    (hne : ps ≠ []) (hperm : arrival.Perm (List.range ps.length)) :
    (close_positions_batch gw tickets).successful_closes.length
        + (close_positions_batch gw tickets).failed_closes.length = tickets.length
    ∧ ∃ closed failed, close_all_positions_endpoint gw none arrival = .report closed failed
        ∧ closed.length + failed.length = ps.length := by
  refine ⟨batch_counts gw tickets, ?_⟩
  have hlen : ps.length ≠ 0 := by simpa [List.length_eq_zero] using hne
  have hrep : close_all_positions_endpoint gw none arrival =
      .report ((reorderBy (ps.map (close_position gw)) arrival).filterMap fun o =>
                  if o.status = "closed" then some o.ticket else none)
              ((reorderBy (ps.map (close_position gw)) arrival).filter fun o =>
                  o.status ≠ "closed") := by
    simp [close_all_positions_endpoint, hinit, hps, hlen]
  refine ⟨_, _, hrep, ?_⟩
  have hp : (reorderBy (ps.map (close_position gw)) arrival).Perm (ps.map (close_position gw)) :=
    reorder_perm _ _ (by simpa using hperm)
  exact (closed_failed_length _).trans (hp.length_eq.trans (by simp))

def posC1 : Position := { ticket := 11, symbol := "EURUSD", type := 0, volume := 1, magic := 7 }

def gwC1 : Gateway :=
  { init_ok := true
  , last_error := ""
  , positions_get := some [posC1]
  , positions_get_by_ticket := fun _ => []
  , symbol_info_tick := fun _ => none
  , order_send := fun _ => none }

/-- Witness for C1 at a concrete gateway, a duplicate-bearing ticket list and
a singleton position list. -/
theorem batch_report_partition_witness :
    (close_positions_batch gwC1 [5, 5]).successful_closes.length
        + (close_positions_batch gwC1 [5, 5]).failed_closes.length = 2
    ∧ ∃ closed failed, close_all_positions_endpoint gwC1 none [0] = .report closed failed
        ∧ closed.length + failed.length = 1 :=
  batch_report_partition gwC1 [5, 5] [posC1] [0] rfl rfl (by decide) (by decide)

/-! ### C10 -/

/-- C10: /close_positions_batch processes the submitted tickets one at a time
in list order: each of `successful_closes` and `failed_closes` preserves the
relative order of its tickets' occurrences in the request list (each is a
sublist of it), and every occurrence of a duplicated ticket produces its own
entry (the per-ticket occurrence counts of the two partitions sum to the
request's occurrence count).  The report is a function of the gateway's
replies, hence deterministic. -/
theorem batch_submission_order (gw : Gateway) (tickets : List Nat) :
    ((close_positions_batch gw tickets).successful_closes.map BatchSuccess.ticket).Sublist tickets
    ∧ ((close_positions_batch gw tickets).failed_closes.map BatchFailure.ticket).Sublist tickets
    ∧ ∀ t : Nat,
        ((close_positions_batch gw tickets).successful_closes.map BatchSuccess.ticket).count t
          + ((close_positions_batch gw tickets).failed_closes.map BatchFailure.ticket).count t
          = tickets.count t := by
  have aux : ∀ ts : List Nat,
      ((ts.filterMap fun t => (close_ticket gw t).getLeft?).map BatchSuccess.ticket).Sublist ts
      ∧ ((ts.filterMap fun t => (close_ticket gw t).getRight?).map BatchFailure.ticket).Sublist ts
      ∧ ∀ t : Nat,
          ((ts.filterMap fun t => (close_ticket gw t).getLeft?).map BatchSuccess.ticket).count t
            + ((ts.filterMap fun t => (close_ticket gw t).getRight?).map BatchFailure.ticket).count t
            = ts.count t := by
    intro ts
    induction ts with
    | nil => exact ⟨List.Sublist.slnil, List.Sublist.slnil, fun t => rfl⟩
    | cons u ts ih =>
        obtain ⟨ihS, ihF, ihC⟩ := ih
        cases hct : close_ticket gw u with
        | inl s =>
            have hu : s.ticket = u := close_ticket_inl_ticket gw u s hct
            refine ⟨?_, ?_, ?_⟩
            · simp only [List.filterMap_cons, hct, Sum.getLeft?_inl, List.map_cons, hu]
              exact ihS.cons₂ u
            · simp only [List.filterMap_cons, hct, Sum.getRight?_inl]
              exact ihF.cons u
            · intro t
              simp only [List.filterMap_cons, hct, Sum.getLeft?_inl, Sum.getRight?_inl,
                List.map_cons, hu]
              have h := ihC t
              rcases eq_or_ne t u with he | he
              · subst he
                rw [List.count_cons_self, List.count_cons_self]
                omega
              · rw [List.count_cons_of_ne he, List.count_cons_of_ne he]
                omega
        | inr f =>
            have hu : f.ticket = u := close_ticket_inr_ticket gw u f hct
            refine ⟨?_, ?_, ?_⟩
            · simp only [List.filterMap_cons, hct, Sum.getLeft?_inr]
              exact ihS.cons u
            · simp only [List.filterMap_cons, hct, Sum.getRight?_inr, List.map_cons, hu]
              exact ihF.cons₂ u
            · intro t
              simp only [List.filterMap_cons, hct, Sum.getLeft?_inr, Sum.getRight?_inr,
                List.map_cons, hu]
              have h := ihC t
              rcases eq_or_ne t u with he | he
              · subst he
                rw [List.count_cons_self, List.count_cons_self]
                omega
              · rw [List.count_cons_of_ne he, List.count_cons_of_ne he]
                omega
  simpa [close_positions_batch] using aux tickets

/-! ### C2 -/

def gwC2 : Gateway :=
  { init_ok := true
  , last_error := ""
  , positions_get := some []
  , positions_get_by_ticket := fun _ => []
  , symbol_info_tick := fun _ => none
  , order_send := fun _ => none }

/-- C2, code behavior at the failing input: with zero open positions the
endpoint does not return the 200 report `{closed: [], failed: []}` — the
`ThreadPoolExecutor(max_workers=0)` constructor raises `ValueError`, so the
outer handler returns HTTP 500 "Internal server error" (no per-item Gateway
calls are made). -/
theorem close_all_empty_returns_500 :
    close_all_positions_endpoint gwC2 none [] = .err 500 "Internal server error"
    ∧ close_all_positions_endpoint gwC2 none []
        ≠ .report [] []
    ∧ close_all_per_item_calls gwC2 = [] :=
  ⟨rfl, by decide, rfl⟩

/-! ### C3 -/

def posC3a : Position := { ticket := 1, symbol := "EURUSD", type := 0, volume := 1, magic := 1 }

def posC3b : Position := { ticket := 2, symbol := "EURUSD", type := 0, volume := 1, magic := 2 }

def gwC3 : Gateway :=
  { init_ok := true
  , last_error := ""
  , positions_get := some [posC3a, posC3b]
  , positions_get_by_ticket := fun _ => []
  , symbol_info_tick := fun _ => some { bid := 11/10, ask := 5501/5000 }
  , order_send := fun _ => some { retcode := 10009, comment := "Request executed", price := 11/10 } }

/-- C3, code behavior at the failing input: the endpoint body never reads the
`magic` query parameter, so with a `magic=1` filter and two open positions
tagged magic 1 and magic 2 it closes both — the magic-2 position (ticket 2)
is closed even though its tag differs from the filter, and the response is
identical to the unfiltered one. -/
theorem close_all_ignores_magic_filter :
    posC3b.magic ≠ 1
    ∧ close_all_positions_endpoint gwC3 (some 1) [0, 1] = .report [1, 2] []
    ∧ close_all_positions_endpoint gwC3 (some 1) [0, 1]
        = close_all_positions_endpoint gwC3 none [0, 1] :=
  ⟨by decide, by decide, rfl⟩

/-! ### C7 -/

/-- C7: when the upfront `positions_get` fetch fails, /close_all_positions
aborts the whole batch with a single HTTP 500 error and performs no per-item
Gateway calls (no quote fetches, no order submissions). -/
theorem position_fetch_failure_aborts (gw : Gateway) (m : Option Int) (arrival : List Nat)
    (hinit : gw.init_ok = true) (hps : gw.positions_get = none) :
    close_all_positions_endpoint gw m arrival
        = .err 500 ("positions_get failed: " ++ gw.last_error)
    ∧ close_all_per_item_calls gw = [] := by
  constructor
  · simp [close_all_positions_endpoint, hinit, hps]
  · simp [close_all_per_item_calls, hinit, hps]

def gwC7 : Gateway :=
  { init_ok := true
  , last_error := "Terminal: Call failed"
  , positions_get := none
  , positions_get_by_ticket := fun _ => []
  , symbol_info_tick := fun _ => none
  , order_send := fun _ => none }

/-- Witness for C7 at a concrete gateway whose position-list fetch fails. -/
theorem position_fetch_failure_aborts_witness :
    close_all_positions_endpoint gwC7 none []
        = .err 500 "positions_get failed: Terminal: Call failed"
    ∧ close_all_per_item_calls gwC7 = [] :=
  position_fetch_failure_aborts gwC7 none [] rfl rfl

/-! ### C6 -/

/-- C6: in /close_positions_batch, a ticket whose lookup finds no open
position (including an already-closed one) yields the failed outcome
"Position not found.", never appears among the successful closes, and does
not abort the rest of the batch (the two partitions still cover the whole
ticket list). -/
theorem ticket_not_found_fails (gw : Gateway) (tickets : List Nat) (t : Nat)
    (ht : gw.positions_get_by_ticket t = []) :
    close_ticket gw t = .inr { ticket := t, error := "Position not found.", result := none }
    ∧ (∀ s, s ∈ (close_positions_batch gw tickets).successful_closes → s.ticket ≠ t)
    ∧ (t ∈ tickets →
        ({ ticket := t, error := "Position not found.", result := none } : BatchFailure)
          ∈ (close_positions_batch gw tickets).failed_closes)
    ∧ (close_positions_batch gw tickets).successful_closes.length
        + (close_positions_batch gw tickets).failed_closes.length = tickets.length := by
  have hnf : close_ticket gw t = .inr ⟨t, "Position not found.", none⟩ := by
    unfold close_ticket
    rw [ht]
  refine ⟨hnf, ?_, ?_, batch_counts gw tickets⟩
  · intro s hs hst
    simp only [close_positions_batch, List.mem_filterMap] at hs
    obtain ⟨u, _, hsu⟩ := hs
    cases hcu : close_ticket gw u with
    | inl s' =>
        rw [hcu] at hsu
        simp only [Sum.getLeft?_inl, Option.some.injEq] at hsu
        subst hsu
        have hut : u = t := by
          rw [← hst]
          exact (close_ticket_inl_ticket gw u s' hcu).symm
        rw [hut, hnf] at hcu
        exact Sum.noConfusion hcu
    | inr f =>
        rw [hcu] at hsu
        simp at hsu
  · intro htm
    simp only [close_positions_batch, List.mem_filterMap]
    refine ⟨t, htm, ?_⟩
    rw [hnf]
    rfl

def gwC6 : Gateway :=
  { init_ok := true
  , last_error := ""
  , positions_get := some []
  , positions_get_by_ticket := fun _ => []
  , symbol_info_tick := fun _ => none
  , order_send := fun _ => none }

/-- Witness for C6: a gateway with no open positions fails ticket 42 with
"Position not found." and records it among the failed closes. -/
theorem ticket_not_found_fails_witness :
    close_ticket gwC6 42 = .inr { ticket := 42, error := "Position not found.", result := none }
    ∧ ({ ticket := 42, error := "Position not found.", result := none } : BatchFailure)
        ∈ (close_positions_batch gwC6 [42]).failed_closes :=
  ⟨(ticket_not_found_fails gwC6 [42] 42 rfl).1,
   (ticket_not_found_fails gwC6 [42] 42 rfl).2.2.1 (by decide)⟩

/-! ### C4 -/

/-- C4: a quote-fetch failure for one symbol turns only that symbol's items
into failures.  Under a second gateway that differs from the first only in
the quote for the failing symbol `s`, every item on another symbol has an
identical outcome (in both endpoints); items on `s` fail; no per-item error
escapes (the per-item workers are total functions into outcomes) and
/close_all_positions still completes with a 200 report carrying both lists. -/
theorem per_item_failure_isolation (gw gw' : Gateway) (s : String) (ps : List Position)
    (arrival : List Nat)
    (hinit : gw.init_ok = true) (hps : gw.positions_get = some ps) (hne : ps ≠ [])
    (htick : gw.symbol_info_tick s = none)
    (hagree : ∀ sym, sym ≠ s → gw.symbol_info_tick sym = gw'.symbol_info_tick sym)
    (hsend : ∀ req, gw.order_send req = gw'.order_send req)
    (hlookup : ∀ t, gw.positions_get_by_ticket t = gw'.positions_get_by_ticket t) :
    (∀ pos : Position, pos.symbol ≠ s → close_position gw pos = close_position gw' pos)
    ∧ (∀ pos : Position, pos.symbol = s → (close_position gw pos).status = "failed")
    ∧ (∀ t pos rest, gw.positions_get_by_ticket t = pos :: rest → pos.symbol ≠ s →
        close_ticket gw t = close_ticket gw' t)
    ∧ (∀ t pos rest, gw.positions_get_by_ticket t = pos :: rest → pos.symbol = s →
        close_ticket gw t
          = .inr { ticket := t, error := "Failed to get price for symbol " ++ s
                 , result := none })
    ∧ (∃ closed failed, close_all_positions_endpoint gw none arrival = .report closed failed) := by
  refine ⟨?_, ?_, ?_, ?_, ?_⟩
  · intro pos h
    unfold close_position
    rw [hagree pos.symbol h]
    cases gw'.symbol_info_tick pos.symbol with
    | none => rfl
    | some tick => simp only [hsend]
  · intro pos h
    unfold close_position
    rw [h, htick]
  · intro t pos rest hpt h
    have hpt' : gw'.positions_get_by_ticket t = pos :: rest := by
      rw [← hlookup t]
      exact hpt
    unfold close_ticket
    rw [hpt, hpt']
    simp only [hagree pos.symbol h, hsend]
  · intro t pos rest hpt h
    unfold close_ticket
    rw [hpt]
    simp only [h, htick]
  · have hlen : ps.length ≠ 0 := by simpa [List.length_eq_zero] using hne
    refine ⟨(reorderBy (ps.map (close_position gw)) arrival).filterMap
        (fun o => if o.status = "closed" then some o.ticket else none),
      (reorderBy (ps.map (close_position gw)) arrival).filter
        (fun o => o.status ≠ "closed"), ?_⟩
    simp [close_all_positions_endpoint, hinit, hps, hlen]

def posC4a : Position := { ticket := 51, symbol := "EURUSD", type := 0, volume := 1, magic := 0 }

def posC4b : Position := { ticket := 52, symbol := "GBPUSD", type := 0, volume := 1, magic := 0 }

def gwC4 : Gateway :=
  { init_ok := true
  , last_error := ""
  , positions_get := some [posC4a, posC4b]
  , positions_get_by_ticket := fun t => if t = 51 then [posC4a] else []
  , symbol_info_tick := fun sym => if sym = "GBPUSD" then none else some { bid := 1, ask := 2 }
  , order_send := fun _ => some { retcode := 10009, comment := "Request executed", price := 1 } }

def gwC4' : Gateway :=
  { init_ok := true
  , last_error := ""
  , positions_get := some [posC4a, posC4b]
  , positions_get_by_ticket := fun t => if t = 51 then [posC4a] else []
  , symbol_info_tick := fun sym =>
      if sym = "GBPUSD" then some { bid := 3, ask := 4 } else some { bid := 1, ask := 2 }
  , order_send := fun _ => some { retcode := 10009, comment := "Request executed", price := 1 } }

/-- Witness for C4: with the quote for "GBPUSD" failing, the "EURUSD" item's
outcome is the same as under a gateway whose "GBPUSD" quote works, and the
"GBPUSD" item fails. -/
theorem per_item_failure_isolation_witness :
    close_position gwC4 posC4a = close_position gwC4' posC4a
    ∧ (close_position gwC4 posC4b).status = "failed"
    ∧ close_ticket gwC4 51 = close_ticket gwC4' 51 :=
  ⟨(per_item_failure_isolation gwC4 gwC4' "GBPUSD" [posC4a, posC4b] [0, 1] rfl rfl
      (by decide) (by decide) (fun sym h => by simp [gwC4, gwC4', h])
      (fun _ => rfl) (fun _ => rfl)).1 posC4a (by decide),
   (per_item_failure_isolation gwC4 gwC4' "GBPUSD" [posC4a, posC4b] [0, 1] rfl rfl
      (by decide) (by decide) (fun sym h => by simp [gwC4, gwC4', h])
      (fun _ => rfl) (fun _ => rfl)).2.1 posC4b rfl,
   (per_item_failure_isolation gwC4 gwC4' "GBPUSD" [posC4a, posC4b] [0, 1] rfl rfl
      (by decide) (by decide) (fun sym h => by simp [gwC4, gwC4', h])
      (fun _ => rfl) (fun _ => rfl)).2.2.1 51 posC4a [] (by decide) (by decide)⟩

/-! ### C5 -/

def posC5 : Position := { ticket := 21, symbol := "EURUSD", type := 0, volume := 1, magic := 3 }

def gwC5 : Gateway :=
  { init_ok := true
  , last_error := ""
  , positions_get := some [posC5]
  , positions_get_by_ticket := fun _ => [posC5]
  , symbol_info_tick := fun _ => some { bid := 11/10, ask := 5501/5000 }
  , order_send := fun _ => some { retcode := 10013, comment := "Invalid request", price := 0 } }

/-- C5 counterexample: in the /close_all_positions worker, a non-done order
result (retcode 10013, comment "Invalid request") produces a failed outcome
whose detail is the numeric retcode alone — neither the terminal comment nor
the raw result is attached, contrary to the claim's description of every
close attempt. -/
theorem close_all_reject_detail_cex :
    gwC5.order_send (all_close_request posC5 (all_order_type posC5)
        (all_price posC5 { bid := 11/10, ask := 5501/5000 }))
      = some { retcode := 10013, comment := "Invalid request", price := 0 }
    ∧ close_position gwC5 posC5
        = { status := "failed", ticket := 21, symbol := some "EURUSD"
          , error := some (.code 10013) }
    ∧ close_position gwC5 posC5
        ≠ { status := "failed", ticket := 21, symbol := some "EURUSD"
          , error := some (.msg "Invalid request") } :=
  ⟨rfl, by decide, by decide⟩

/-- C5 amended: outcome mapping of a close attempt whose submission reaches
the Gateway.  In /close_positions_batch: a `None` result yields a failed
outcome with detail "order_send returned None"; a non-done result yields a
failed outcome with the terminal comment and the raw result attached; a done
result yields a successful outcome recording the ticket.  In the
/close_all_positions worker: a `None` result yields a failed outcome whose
detail is the caught `AttributeError` message; a non-done result yields a
failed outcome whose detail is the numeric retcode (no comment, no raw
result); a done result yields a closed outcome recording the ticket. -/
theorem close_outcome_mapping (gw : Gateway) (t : Nat) (pos : Position) (tick : Tick)
    (r : OrderResult)
    (hpos : gw.positions_get_by_ticket t = [pos])
    (htick : gw.symbol_info_tick pos.symbol = some tick) :
    (gw.order_send (batch_close_request pos (batch_order_type pos) (batch_price pos tick)) = none →
        close_ticket gw t
          = .inr { ticket := t, error := "order_send returned None", result := some none })
    ∧ (gw.order_send (batch_close_request pos (batch_order_type pos) (batch_price pos tick)) = some r →
        r.retcode ≠ TRADE_RETCODE_DONE →
        close_ticket gw t
          = .inr { ticket := t, error := r.comment, result := some (some r) })
    ∧ (gw.order_send (batch_close_request pos (batch_order_type pos) (batch_price pos tick)) = some r →
        r.retcode = TRADE_RETCODE_DONE →
        close_ticket gw t = .inl { ticket := t, result := r })
    ∧ (gw.order_send (all_close_request pos (all_order_type pos) (all_price pos tick)) = none →
        close_position gw pos
          = { status := "failed", ticket := pos.ticket, symbol := none
            , error := some (.msg noneRetcodeErr) })
    ∧ (gw.order_send (all_close_request pos (all_order_type pos) (all_price pos tick)) = some r →
        r.retcode ≠ TRADE_RETCODE_DONE →
        close_position gw pos
          = { status := "failed", ticket := pos.ticket, symbol := some pos.symbol
            , error := some (.code r.retcode) })
    ∧ (gw.order_send (all_close_request pos (all_order_type pos) (all_price pos tick)) = some r →
        r.retcode = TRADE_RETCODE_DONE →
        close_position gw pos
          = { status := "closed", ticket := pos.ticket, symbol := none, error := none }) := by
  refine ⟨?_, ?_, ?_, ?_, ?_, ?_⟩
  · intro hsend
    unfold close_ticket
    rw [hpos]
    simp only [htick, hsend]
  · intro hsend hrc
    unfold close_ticket
    rw [hpos]
    simp only [htick, hsend, hrc, if_false]
  · intro hsend hrc
    unfold close_ticket
    rw [hpos]
    simp only [htick, hsend, hrc]
    simp
  · intro hsend
    unfold close_position
    rw [htick]
    simp only [hsend]
  · intro hsend hrc
    unfold close_position
    rw [htick]
    simp only [hsend, hrc]
    simp [hrc]
  · intro hsend hrc
    unfold close_position
    rw [htick]
    simp only [hsend, hrc]
    simp

/-- Witness for the amended C5 at a concrete gateway whose order submission
is rejected with retcode 10013. -/
theorem close_outcome_mapping_witness :
    close_ticket gwC5 21
      = .inr { ticket := 21, error := "Invalid request"
             , result := some (some { retcode := 10013, comment := "Invalid request", price := 0 }) }
    ∧ close_position gwC5 posC5
      = { status := "failed", ticket := 21, symbol := some "EURUSD"
        , error := some (.code 10013) } :=
  ⟨(close_outcome_mapping gwC5 21 posC5 { bid := 11/10, ask := 5501/5000 }
      { retcode := 10013, comment := "Invalid request", price := 0 } rfl rfl).2.1
      rfl (by decide),
   (close_outcome_mapping gwC5 21 posC5 { bid := 11/10, ask := 5501/5000 }
      { retcode := 10013, comment := "Invalid request", price := 0 } rfl rfl).2.2.2.2.1
      rfl (by decide)⟩

/-! ### C8 -/

def posC8a : Position := { ticket := 101, symbol := "EURUSD", type := 0, volume := 1, magic := 0 }

def posC8b : Position := { ticket := 103, symbol := "EURUSD", type := 0, volume := 1, magic := 0 }

def tickC8 : Tick := { bid := 11/10, ask := 5501/5000 }

def gwC8 : Gateway :=
  { init_ok := true
  , last_error := ""
  , positions_get := some [posC8a, posC8b]
  , positions_get_by_ticket := fun t =>
      if t = 101 then [posC8a] else if t = 103 then [posC8b] else []
  , symbol_info_tick := fun _ => some tickC8
  , order_send := fun req => some { retcode := 10009, comment := "Request executed", price := req.price } }

/-- C8: in both endpoints the closing order's side is the opposite of the
position's side (buy → sell, sell → buy) and its price is the quote's bid
when the closing order is a sell and the ask when it is a buy; moreover the
submitted request carries exactly that side and price.  Concrete scenario:
tickets [101, 102, 103] with 101 and 103 open as buys on "EURUSD" quoted
bid=1.1000/ask=1.1002 and 102 not found — 101 and 103 close at price 1.1000
(the bid) and 102 fails with "Position not found.". -/
theorem close_side_price_scenario (pos : Position) (tick : Tick) :
    (pos.type = POSITION_TYPE_BUY →
        batch_order_type pos = ORDER_TYPE_SELL ∧ batch_price pos tick = tick.bid
        ∧ all_order_type pos = ORDER_TYPE_SELL ∧ all_price pos tick = tick.bid)
    ∧ (pos.type = POSITION_TYPE_SELL →
        batch_order_type pos = ORDER_TYPE_BUY ∧ batch_price pos tick = tick.ask
        ∧ all_order_type pos = ORDER_TYPE_BUY ∧ all_price pos tick = tick.ask)
    ∧ (batch_close_request pos (batch_order_type pos) (batch_price pos tick)).type
        = batch_order_type pos
    ∧ (batch_close_request pos (batch_order_type pos) (batch_price pos tick)).price
        = batch_price pos tick
    ∧ close_positions_batch gwC8 [101, 102, 103]
        = { successful_closes :=
              [ { ticket := 101
                , result := { retcode := 10009, comment := "Request executed", price := 11/10 } }
              , { ticket := 103
                , result := { retcode := 10009, comment := "Request executed", price := 11/10 } } ]
          , failed_closes :=
              [ { ticket := 102, error := "Position not found.", result := none } ] } := by
  refine ⟨?_, ?_, rfl, rfl, rfl⟩
  · intro h
    simp [batch_order_type, batch_price, all_order_type, all_price, h,
      POSITION_TYPE_BUY, ORDER_TYPE_BUY, ORDER_TYPE_SELL]
  · intro h
    simp [batch_order_type, batch_price, all_order_type, all_price, h,
      POSITION_TYPE_BUY, POSITION_TYPE_SELL, ORDER_TYPE_BUY, ORDER_TYPE_SELL]

/-- Witness for C8: the buy position of ticket 101 closes via a sell order
priced at the bid. -/
theorem close_side_price_scenario_witness :
    batch_order_type posC8a = ORDER_TYPE_SELL ∧ batch_price posC8a tickC8 = tickC8.bid
    ∧ all_order_type posC8a = ORDER_TYPE_SELL ∧ all_price posC8a tickC8 = tickC8.bid :=
  (close_side_price_scenario posC8a tickC8).1 rfl

/-! ### C9 -/

def gwC9 : Gateway :=
  { init_ok := true
  , last_error := ""
  , positions_get := some []
  , positions_get_by_ticket := fun _ => []
  , symbol_info_tick := fun _ => none
  , order_send := fun _ => none }

/-- C9 counterexample: /close_positions_batch does not collect outcomes as
they complete — under the completion order [1, 0] (second item finishing
first) the spec's concurrent dispatcher reports the failed tickets as
[202, 201], while the endpoint, a sequential loop, always reports them in
submission order [201, 202]; the two reports differ. -/
theorem batch_not_completion_ordered_cex :
    [1, 0].Perm (List.range 2)
    ∧ concurrent_dispatch_spec gwC9 [201, 202] [1, 0]
        ≠ close_positions_batch gwC9 [201, 202]
    ∧ ((concurrent_dispatch_spec gwC9 [201, 202] [1, 0]).failed_closes.map
        BatchFailure.ticket) = [202, 201]
    ∧ ((close_positions_batch gwC9 [201, 202]).failed_closes.map
        BatchFailure.ticket) = [201, 202] := by
  decide

/-- C9 amended: the completion-order collection discipline holds only for
/close_all_positions: it runs one worker per position (pool width = batch
size) and collects outcomes in completion order, so its report content is
the same (up to permutation) under any completion order.
/close_positions_batch instead processes tickets strictly sequentially: it
coincides with the spec's concurrent dispatcher only at the identity
completion order. -/
theorem dispatch_discipline (gw : Gateway) (ps : List Position) (arr1 arr2 : List Nat)
    (hinit : gw.init_ok = true) (hps : gw.positions_get = some ps) (hne : ps ≠ [])
    (h1 : arr1.Perm (List.range ps.length)) (h2 : arr2.Perm (List.range ps.length)) :
    (∃ c1 f1 c2 f2,
        close_all_positions_endpoint gw none arr1 = .report c1 f1
        ∧ close_all_positions_endpoint gw none arr2 = .report c2 f2
        ∧ c1.Perm c2 ∧ f1.Perm f2)
    ∧ ∀ (gwb : Gateway) (tickets : List Nat),
        close_positions_batch gwb tickets
          = concurrent_dispatch_spec gwb tickets (List.range tickets.length) := by
  constructor
  · have hlen : ps.length ≠ 0 := by simpa [List.length_eq_zero] using hne
    have hx1 : (reorderBy (ps.map (close_position gw)) arr1).Perm
        (ps.map (close_position gw)) := reorder_perm _ _ (by simpa using h1)
    have hx2 : (reorderBy (ps.map (close_position gw)) arr2).Perm
        (ps.map (close_position gw)) := reorder_perm _ _ (by simpa using h2)
    have hx := hx1.trans hx2.symm
    refine ⟨(reorderBy (ps.map (close_position gw)) arr1).filterMap
        (fun o => if o.status = "closed" then some o.ticket else none),
      (reorderBy (ps.map (close_position gw)) arr1).filter (fun o => o.status ≠ "closed"),
      (reorderBy (ps.map (close_position gw)) arr2).filterMap
        (fun o => if o.status = "closed" then some o.ticket else none),
      (reorderBy (ps.map (close_position gw)) arr2).filter (fun o => o.status ≠ "closed"),
      ?_, ?_, hx.filterMap _, hx.filter _⟩
    · simp [close_all_positions_endpoint, hinit, hps, hlen]
    · simp [close_all_positions_endpoint, hinit, hps, hlen]
  · intro gwb tickets
    have hr := reorder_range (tickets.map (close_ticket gwb))
    rw [List.length_map] at hr
    unfold close_positions_batch concurrent_dispatch_spec
    rw [hr]
    simp [List.filterMap_map, Function.comp_def]

def posC9 : Position := { ticket := 31, symbol := "EURUSD", type := 0, volume := 1, magic := 0 }

def gwC9w : Gateway :=
  { init_ok := true
  , last_error := ""
  , positions_get := some [posC9]
  , positions_get_by_ticket := fun _ => []
  , symbol_info_tick := fun _ => none
  , order_send := fun _ => none }

/-- Witness for the amended C9: the sequential batch endpoint coincides with
the spec dispatcher at the identity completion order on a concrete input. -/
theorem dispatch_discipline_witness :
    close_positions_batch gwC9 [201, 202]
      = concurrent_dispatch_spec gwC9 [201, 202] (List.range 2) :=
  (dispatch_discipline gwC9w [posC9] [0] [0] rfl rfl (by decide) (by decide)
    (by decide)).2 gwC9 [201, 202]

end MT5Quant
